import Mathlib

/-!
Verification of the order-lifecycle / stock-ledger / vehicle-assignment core of
the Agregados Zambrana backend.

Shallow embedding of:
- `src/models/Pedido.js` (order state machine: `updateStatus`, `confirm`),
- `src/models/Stock.js` (stock ledger: `checkAvailability`, `reduceStock`,
  `increaseStock`, `updateQuantity`),
- `src/models/Vehiculo.js` (assignment engine: `aplicarReglasSeleccion`),
- `src/config/queries.js` (the SQL statements, modelled as pure updates on an
  in-memory database value),
- `src/utils/codigoSeguimiento.js` (tracking-code generator and validator),
- the validators `validateId` / `validateQuantity` from the utils module.

Numbers that are JS floats in the source are modelled as rationals; JS
`Math.round`-style rounding is `jsRound2`. Database operations take the
database value and return the database after the call together with the
result, mirroring the fact that a thrown JS exception does not undo earlier
awaited queries. Wall-clock readings are threaded as an explicit `now`
parameter (milliseconds), and the haversine distance (a transcendental
function) is an explicit function parameter of the assignment engine.
-/

namespace Zambrana

/-- Estado of an order, `Pedido.ESTADOS` in `src/models/Pedido.js`
(wire strings: pendiente, confirmado, asignado, en_transito, entregado,
cancelado). -/
inductive Estado where
  | pendiente
  | confirmado
  | asignado
  | enTransito
  | entregado
  | cancelado
deriving DecidableEq, Repr

/-- Wire/storage string of an order status. -/
def estadoStr : Estado → String
  | .pendiente => "pendiente"
  | .confirmado => "confirmado"
  | .asignado => "asignado"
  | .enTransito => "en_transito"
  | .entregado => "entregado"
  | .cancelado => "cancelado"

/-- Transition table `Pedido.FLUJO_ESTADOS` of `src/models/Pedido.js`. -/
def flujoEstados : Estado → List Estado
  | .pendiente => [.confirmado, .cancelado]
  | .confirmado => [.asignado, .cancelado]
  | .asignado => [.enTransito, .cancelado]
  | .enTransito => [.entregado]
  | .entregado => []
  | .cancelado => []

/-- Error taxonomy of `src/middleware/errorHandler.js` restricted to the kinds
the modelled operations raise; `dbFailure` stands for a generic error thrown
by the persistence client (a failed round trip). -/
inductive DomainError where
  | validation (msg : String)
  | notFound (msg : String)
  | businessLogic (msg : String)
  | dbFailure
deriving DecidableEq, Repr

/-- A row of the `pedidos` table (the columns the modelled operations read or
write). -/
structure PedidoRec where
  id : ℕ
  codigoSeguimiento : String
  clienteId : ℕ
  materialId : ℕ
  cantidad : ℚ
  precioTotal : ℚ
  estado : Estado
  updatedAt : ℕ
deriving DecidableEq, Repr

/-- A row of the `stock` table. -/
structure StockRec where
  materialId : ℕ
  cantidadDisponible : ℚ
  cantidadMinima : ℚ
  actualizadoPor : ℕ
  ultimaActualizacion : ℕ
deriving DecidableEq, Repr

/-- A row of the `materiales` table (the columns used by the modelled
operations). -/
structure MaterialRec where
  id : ℕ
  nombre : String
  unidadMedida : String
  precioPorUnidad : ℚ
  activo : Bool
deriving DecidableEq, Repr

/-- The persisted state the modelled operations touch. -/
structure DB where
  pedidos : List PedidoRec
  stock : List StockRec
  materiales : List MaterialRec
deriving DecidableEq, Repr

/-- Row lookup `SELECT ... FROM vista_pedidos_completa WHERE id = $1`
(`PEDIDOS.FIND_BY_ID`): first row with the given id. -/
def findPedido (db : DB) (id : ℕ) : Option PedidoRec :=
  db.pedidos.find? (fun p => p.id == id)

/-- Row lookup `SELECT ... FROM stock WHERE material_id = $1`
(`STOCK.FIND_BY_MATERIAL`, the stock part of the join). -/
def findStock (db : DB) (mid : ℕ) : Option StockRec :=
  db.stock.find? (fun s => s.materialId == mid)

/-- Row lookup `SELECT ... FROM materiales WHERE id = $1`
(`MATERIALES.FIND_BY_ID`). -/
def findMaterial (db : DB) (mid : ℕ) : Option MaterialRec :=
  db.materiales.find? (fun m => m.id == mid)

/-- JS `Math.round(x * 100) / 100` (round half towards positive infinity at
two decimals), used by `validateQuantity`. -/
def jsRound2 (q : ℚ) : ℚ := (⌊q * 100 + 1 / 2⌋ : ℚ) / 100

/-- Validator `validateId` of the utils module: a numeric id is valid when it
parses to a positive integer (ids are natural numbers in this model). -/
def validateId (id : ℕ) : Bool := id != 0

/-- Validator `validateQuantity` of the utils module: requires
`0 < cantidad ≤ 1000` and rounds the accepted value to two decimals. -/
def validateQuantity (q : ℚ) : Option ℚ :=
  if q ≤ 0 then none
  else if 1000 < q then none
  else some (jsRound2 q)

/-- Modelled from the spec: the PostgreSQL function
`verificar_stock_disponible` (called through `STOCK.CHECK_AVAILABILITY`) is
part of the database schema, which is not among the repository sources. Per
spec section 4.1 the availability check is a read-only "pure comparison of
`requiredQty ≤ available_quantity`"; a material with no stock row has nothing
available. -/
def verificarStockDisponible (db : DB) (mid : ℕ) (qty : ℚ) : Bool :=
  match findStock db mid with
  | some s => decide (qty ≤ s.cantidadDisponible)
  | none => false

/-- Update `UPDATE pedidos SET estado = $2, updated_at = now WHERE id = $1`
(`PEDIDOS.UPDATE_STATUS`) applied to one row. -/
def updateStatusRow (id : ℕ) (nuevo : Estado) (now : ℕ) (p : PedidoRec) : PedidoRec :=
  if p.id == id then { p with estado := nuevo, updatedAt := now } else p

/-- Query `PEDIDOS.UPDATE_STATUS`: updates the matching rows and returns the
first updated row (`RETURNING`). -/
def queryUpdateStatus (db : DB) (id : ℕ) (nuevo : Estado) (now : ℕ) :
    DB × Option PedidoRec :=
  let pedidos := db.pedidos.map (updateStatusRow id nuevo now)
  ({ db with pedidos := pedidos }, pedidos.find? (fun p => p.id == id))

/-- The row transformation of `STOCK.REDUCE_STOCK`: `UPDATE stock SET
cantidad_disponible = cantidad_disponible - $2, actualizado_por = $3,
ultima_actualizacion = now WHERE material_id = $1 AND cantidad_disponible >=
$2`. -/
def reduceStockRow (mid : ℕ) (qty : ℚ) (uid now : ℕ) (s : StockRec) : StockRec :=
  if s.materialId == mid ∧ qty ≤ s.cantidadDisponible then
    { s with cantidadDisponible := s.cantidadDisponible - qty,
             actualizadoPor := uid, ultimaActualizacion := now }
  else s

/-- Query `STOCK.REDUCE_STOCK`: the single conditional decrement. Returns the
database after the update together with the first updated row (`RETURNING`;
`none` when no row satisfied the guard). -/
def queryReduceStock (db : DB) (mid : ℕ) (qty : ℚ) (uid now : ℕ) :
    DB × Option StockRec :=
  ({ db with stock := db.stock.map (reduceStockRow mid qty uid now) },
   (db.stock.find? (fun s => s.materialId == mid && decide (qty ≤ s.cantidadDisponible))).map
     (fun s => { s with cantidadDisponible := s.cantidadDisponible - qty,
                        actualizadoPor := uid, ultimaActualizacion := now }))

/-- The row transformation of `STOCK.UPDATE_QUANTITY`: `UPDATE stock SET
cantidad_disponible = $2, actualizado_por = $3, ultima_actualizacion = now
WHERE material_id = $1`. -/
def setQuantityRow (mid : ℕ) (q : ℚ) (uid now : ℕ) (s : StockRec) : StockRec :=
  if s.materialId == mid then
    { s with cantidadDisponible := q, actualizadoPor := uid, ultimaActualizacion := now }
  else s

/-- Query `STOCK.UPDATE_QUANTITY`: unconditional set, returning the first
updated row. -/
def queryUpdateQuantity (db : DB) (mid : ℕ) (q : ℚ) (uid now : ℕ) :
    DB × Option StockRec :=
  ({ db with stock := db.stock.map (setQuantityRow mid q uid now) },
   (db.stock.find? (fun s => s.materialId == mid)).map (setQuantityRow mid q uid now))

/-- Stock level names, `Stock.NIVELES_STOCK` with `Stock.calculateStockLevel`
of `src/models/Stock.js`. -/
def calculateStockLevel (actual minima : ℚ) : String :=
  if actual ≤ minima then "CRÍTICO"
  else if actual ≤ minima * 1.5 then "BAJO"
  else "NORMAL"

/-- Result row of `Stock.findByMaterial` (stock row joined with the material
columns the modelled callers use). -/
structure StockInfo where
  stock : StockRec
  materialNombre : String
  unidadMedida : String
  nivelStock : String
deriving DecidableEq, Repr

/-- Operation `Stock.findByMaterial` of `src/models/Stock.js`: validates the
id, then reads the stock row joined with `materiales` (the join returns no
row when either side is missing). Read-only. -/
def stockFindByMaterial (db : DB) (mid : ℕ) : Except DomainError (Option StockInfo) :=
  if validateId mid = false then .error (.validation "ID de material inválido")
  else
    match findStock db mid, findMaterial db mid with
    | some s, some m =>
        .ok (some { stock := s, materialNombre := m.nombre, unidadMedida := m.unidadMedida,
                    nivelStock := calculateStockLevel s.cantidadDisponible s.cantidadMinima })
    | _, _ => .ok none

/-- Output of `Stock.checkAvailability` restricted to the fields its callers
read (`disponible` and the `recomendacion` message). -/
structure Availability where
  disponible : Bool
  cantidadActual : ℚ
  recomendacion : String
deriving DecidableEq, Repr

/-- Message built by `Stock.checkAvailability` when stock is insufficient
(number formatting approximates the JS template). -/
def mensajeStockInsuficiente (info : Option StockInfo) : String :=
  "Stock insuficiente. Disponible: "
    ++ toString (match info with | some i => i.stock.cantidadDisponible | none => 0)
    ++ " "
    ++ (match info with | some i => i.unidadMedida | none => "m³")

/-- Operation `Stock.checkAvailability` of `src/models/Stock.js`: validates
its inputs, asks `verificar_stock_disponible`, then reads the stock row for
the informational fields. Read-only. -/
def stockCheckAvailability (db : DB) (mid : ℕ) (q : ℚ) : Except DomainError Availability :=
  if validateId mid = false then .error (.validation "ID de material inválido")
  else
    match validateQuantity q with
    | none => .error (.validation "Cantidad inválida")
    | some qv =>
      let disponible := verificarStockDisponible db mid qv
      match stockFindByMaterial db mid with
      | .error e => .error e
      | .ok info =>
          .ok { disponible := disponible,
                cantidadActual := (match info with
                  | some i => i.stock.cantidadDisponible
                  | none => 0),
                recomendacion := if disponible then "Stock suficiente"
                  else mensajeStockInsuficiente info }

/-- Operation `Stock.reduceStock` of `src/models/Stock.js`: validates the
three parameters, re-checks availability (advisory), then performs the
conditional decrement `STOCK.REDUCE_STOCK`; an empty `RETURNING` set is the
race-condition rejection. -/
def stockReduceStock (db : DB) (mid : ℕ) (q : ℚ) (uid now : ℕ) :
    DB × Except DomainError StockRec :=
  match validateQuantity q with
  | none => (db, .error (.validation "Parámetros inválidos"))
  | some qv =>
    if validateId mid = false ∨ validateId uid = false then
      (db, .error (.validation "Parámetros inválidos"))
    else
      match stockCheckAvailability db mid qv with
      | .error e => (db, .error e)
      | .ok availability =>
        if availability.disponible = false then
          (db, .error (.businessLogic availability.recomendacion))
        else
          match queryReduceStock db mid qv uid now with
          | (db2, none) =>
              (db2, .error (.businessLogic
                "No se pudo reducir el stock (posible condición de carrera)"))
          | (db2, some updated) => (db2, .ok updated)

/-- Operation `Stock.updateQuantity` of `src/models/Stock.js`: validates,
requires the material and the stock row to exist, then performs the
unconditional set `STOCK.UPDATE_QUANTITY`. -/
def stockUpdateQuantity (db : DB) (mid : ℕ) (nueva : ℚ) (uid now : ℕ) :
    DB × Except DomainError StockRec :=
  if validateId mid = false then (db, .error (.validation "ID de material inválido"))
  else
    match validateQuantity nueva with
    | none => (db, .error (.validation "Cantidad inválida"))
    | some qv =>
      if validateId uid = false then (db, .error (.validation "ID de usuario inválido"))
      else
        match findMaterial db mid with
        | none => (db, .error (.notFound "Material no encontrado"))
        | some _ =>
          match stockFindByMaterial db mid with
          | .error e => (db, .error e)
          | .ok none => (db, .error (.notFound "Registro de stock no encontrado"))
          | .ok (some _) =>
            match queryUpdateQuantity db mid qv uid now with
            | (db2, some updated) => (db2, .ok updated)
            | (db2, none) => (db2, .error .dbFailure)

/-- Operation `Stock.increaseStock` of `src/models/Stock.js`: reads the
current quantity, adds the (unvalidated) increment, and delegates to
`Stock.updateQuantity`. -/
def stockIncreaseStock (db : DB) (mid : ℕ) (q : ℚ) (uid now : ℕ) :
    DB × Except DomainError StockRec :=
  match stockFindByMaterial db mid with
  | .error e => (db, .error e)
  | .ok none => (db, .error (.notFound "Stock no encontrado"))
  | .ok (some info) =>
      stockUpdateQuantity db mid (info.stock.cantidadDisponible + q) uid now

/-- Operation `Pedido.findById` of `src/models/Pedido.js`: validates the id,
then reads the row. Read-only. -/
def pedidoFindById (db : DB) (id : ℕ) : Except DomainError (Option PedidoRec) :=
  if validateId id = false then .error (.validation "ID de pedido inválido")
  else .ok (findPedido db id)

/-- Message of the illegal-transition `BusinessLogicError` raised by
`Pedido.updateStatus`: names the attempted `current → requested` pair and
lists the permitted next states. -/
def mensajeTransicionInvalida (actual nuevo : Estado) : String :=
  "Transición de estado inválida: " ++ estadoStr actual ++ " → " ++ estadoStr nuevo
    ++ ". Transiciones permitidas: "
    ++ String.intercalate ", " ((flujoEstados actual).map estadoStr)

/-- Operation `Pedido.updateStatus` of `src/models/Pedido.js`. The requested
status is an `Estado`, so the source's membership test of `nuevoEstado` in
`Pedido.ESTADOS` (a `ValidationError` otherwise) always passes and is not
repeated here. `failWrite` injects a persistence failure of the
`PEDIDOS.UPDATE_STATUS` round trip (the query throws, the row is not
written); the source has no handling for it beyond rethrowing. -/
def pedidoUpdateStatusAux (failWrite : Bool) (db : DB) (id : ℕ) (nuevo : Estado)
    (_userId now : ℕ) : DB × Except DomainError PedidoRec :=
  if validateId id = false then (db, .error (.validation "ID de pedido inválido"))
  else
    match findPedido db id with
    | none => (db, .error (.notFound "Pedido no encontrado"))
    | some pedidoActual =>
      if nuevo ∈ flujoEstados pedidoActual.estado then
        if failWrite then (db, .error .dbFailure)
        else
          match queryUpdateStatus db id nuevo now with
          | (db2, some updated) => (db2, .ok updated)
          | (db2, none) => (db2, .error .dbFailure)
      else
        (db, .error (.businessLogic (mensajeTransicionInvalida pedidoActual.estado nuevo)))

/-- Operation `Pedido.updateStatus` with a healthy persistence layer. -/
def pedidoUpdateStatus (db : DB) (id : ℕ) (nuevo : Estado) (userId now : ℕ) :
    DB × Except DomainError PedidoRec :=
  pedidoUpdateStatusAux false db id nuevo userId now

/-- Operation `Pedido.confirm` of `src/models/Pedido.js`: requires PENDIENTE,
re-checks availability through `STOCK.CHECK_AVAILABILITY`, performs the
conditional decrement `STOCK.REDUCE_STOCK`, then transitions the order to
CONFIRMADO through `Pedido.updateStatus`. The two writes are issued as two
independent statements (no `BEGIN`/`COMMIT` around them); `failWrite` injects
a persistence failure of the final status write, after which the `catch`
block only rethrows. -/
def pedidoConfirmAux (failWrite : Bool) (db : DB) (id userId now : ℕ) :
    DB × Except DomainError (PedidoRec × StockRec) :=
  match pedidoFindById db id with
  | .error e => (db, .error e)
  | .ok none => (db, .error (.notFound "Pedido no encontrado"))
  | .ok (some pedido) =>
    if pedido.estado ≠ Estado.pendiente then
      (db, .error (.businessLogic
        ("No se puede confirmar pedido en estado: " ++ estadoStr pedido.estado)))
    else
      if verificarStockDisponible db pedido.materialId pedido.cantidad = false then
        (db, .error (.businessLogic "Stock insuficiente para confirmar el pedido"))
      else
        match queryReduceStock db pedido.materialId pedido.cantidad userId now with
        | (db2, none) =>
            (db2, .error (.businessLogic
              "No se pudo reducir el stock (posible condición de carrera)"))
        | (db2, some stockRow) =>
          match pedidoUpdateStatusAux failWrite db2 id Estado.confirmado userId now with
          | (db3, .error e) => (db3, .error e)
          | (db3, .ok updated) => (db3, .ok (updated, stockRow))

/-- Operation `Pedido.confirm` with a healthy persistence layer. -/
def pedidoConfirm (db : DB) (id userId now : ℕ) :
    DB × Except DomainError (PedidoRec × StockRec) :=
  pedidoConfirmAux false db id userId now

/-- A row returned by `obtener_vehiculos_disponibles` (the pool of AVAILABLE
vehicles with sufficient capacity), as consumed by
`Vehiculo.aplicarReglasSeleccion`: capacity, optional last GPS fix and its
timestamp (milliseconds). -/
structure VehiculoDisp where
  vehiculoId : ℕ
  placa : String
  capacidad : ℚ
  ubicacionLat : Option ℚ
  ubicacionLng : Option ℚ
  ultimaUbicacion : Option ℕ
deriving DecidableEq, Repr

/-- The order fields `Vehiculo.aplicarReglasSeleccion` reads: quantity and
optional delivery coordinates. -/
structure PedidoDatos where
  cantidad : ℚ
  direccionLat : Option ℚ
  direccionLng : Option ℚ
deriving DecidableEq, Repr

/-- A vehicle under evaluation: the source seeds each pool entry with
`puntuacion: 0` and an empty `reglas_aplicadas` list. The textual
`razon_seleccion` built by `generarJustificacion` (plate, capacity and
utilization percentage formatted with `toFixed`) is display-only and not
modelled; selection is determined by `puntuacion` alone. -/
structure VehiculoEvaluado where
  vehiculo : VehiculoDisp
  puntuacion : ℕ
  reglasAplicadas : List String
deriving DecidableEq, Repr

/-- JS truthiness of an optional numeric coordinate (`null`, `undefined` and
`0` are falsy). -/
def truthyCoord : Option ℚ → Bool
  | none => false
  | some x => x != 0

/-- Rule 1 of `Vehiculo.aplicarReglasSeleccion` (utilization band): points and
rule name awarded from the ratio `cantidad / capacidad`. -/
def reglaCapacidad (cantidad capacidad : ℚ) : ℕ × String :=
  let r := cantidad / capacidad
  if 0.7 ≤ r ∧ r ≤ 0.95 then (10, "Utilización óptima de capacidad")
  else if 0.5 ≤ r then (7, "Utilización aceptable de capacidad")
  else if 0.3 ≤ r then (4, "Utilización baja de capacidad")
  else (1, "Sobredimensionado para el pedido")

/-- Application of rule 1 to one evaluated vehicle. -/
def aplicarRegla1 (p : PedidoDatos) (v : VehiculoEvaluado) : VehiculoEvaluado :=
  let pts := reglaCapacidad p.cantidad v.vehiculo.capacidad
  { v with puntuacion := v.puntuacion + pts.1,
           reglasAplicadas := v.reglasAplicadas ++ [pts.2] }

/-- `Math.min` over the capacities of the evaluated pool (rule 2 of
`Vehiculo.aplicarReglasSeleccion`; the pool is nonempty on every call from
the source). -/
def capacidadMinimaDe (l : List VehiculoEvaluado) : ℚ :=
  match l.map (fun v => v.vehiculo.capacidad) with
  | [] => 0
  | c :: cs => cs.foldl min c

/-- Rule 2 of `Vehiculo.aplicarReglasSeleccion`: +5 to every vehicle whose
capacity equals the minimum capacity of the pool. -/
def aplicarRegla2 (capMin : ℚ) (v : VehiculoEvaluado) : VehiculoEvaluado :=
  if v.vehiculo.capacidad = capMin then
    { v with puntuacion := v.puntuacion + 5,
             reglasAplicadas := v.reglasAplicadas ++ ["Vehículo de menor capacidad disponible"] }
  else v

/-- Rule 3 of `Vehiculo.aplicarReglasSeleccion` applied to one vehicle, given
the (truthy) delivery coordinates: +8 when the haversine distance is below
5 km, +5 below 15 km, +2 otherwise; no points when the vehicle has no truthy
last fix. `dist` abstracts `Vehiculo.calculateDistance` (haversine on Earth
radius 6371 km, transcendental and therefore kept as a parameter). -/
def aplicarRegla3 (dist : ℚ → ℚ → ℚ → ℚ → ℚ) (plat plng : ℚ) (v : VehiculoEvaluado) :
    VehiculoEvaluado :=
  match v.vehiculo.ubicacionLat, v.vehiculo.ubicacionLng with
  | some vlat, some vlng =>
    if vlat ≠ 0 ∧ vlng ≠ 0 then
      let d := dist vlat vlng plat plng
      if d < 5 then
        { v with puntuacion := v.puntuacion + 8,
                 reglasAplicadas := v.reglasAplicadas ++ ["Muy cerca del destino"] }
      else if d < 15 then
        { v with puntuacion := v.puntuacion + 5,
                 reglasAplicadas := v.reglasAplicadas ++ ["Relativamente cerca del destino"] }
      else
        { v with puntuacion := v.puntuacion + 2,
                 reglasAplicadas := v.reglasAplicadas ++ ["Distancia considerable al destino"] }
    else v
  | _, _ => v

/-- Rule 3 over the pool: the source guards the whole block on the order
carrying (truthy) delivery coordinates. -/
def aplicarRegla3Lista (dist : ℚ → ℚ → ℚ → ℚ → ℚ) (p : PedidoDatos)
    (l : List VehiculoEvaluado) : List VehiculoEvaluado :=
  match p.direccionLat, p.direccionLng with
  | some plat, some plng =>
      if plat ≠ 0 ∧ plng ≠ 0 then l.map (aplicarRegla3 dist plat plng) else l
  | _, _ => l

/-- Rule 4 of `Vehiculo.aplicarReglasSeleccion` (location freshness): +3 when
the last fix is under 30 minutes old, +1 under 120 minutes; `now` and the fix
timestamp are in milliseconds. -/
def aplicarRegla4 (now : ℕ) (v : VehiculoEvaluado) : VehiculoEvaluado :=
  match v.vehiculo.ultimaUbicacion with
  | some t =>
    let minutos : ℚ := ((now : ℚ) - (t : ℚ)) / (1000 * 60)
    if minutos < 30 then
      { v with puntuacion := v.puntuacion + 3,
               reglasAplicadas := v.reglasAplicadas ++ ["Ubicación recientemente actualizada"] }
    else if minutos < 120 then
      { v with puntuacion := v.puntuacion + 1,
               reglasAplicadas := v.reglasAplicadas ++ ["Ubicación actualizada en las últimas 2 horas"] }
    else v
  | none => v

/-- The four scoring rules of `Vehiculo.aplicarReglasSeleccion` in source
order, producing the evaluated pool in the input order of the vehicles. -/
def evaluarVehiculos (dist : ℚ → ℚ → ℚ → ℚ → ℚ) (now : ℕ) (vs : List VehiculoDisp)
    (p : PedidoDatos) : List VehiculoEvaluado :=
  let l0 := vs.map (fun v => { vehiculo := v, puntuacion := 0, reglasAplicadas := [] })
  let l1 := l0.map (aplicarRegla1 p)
  let l2 := l1.map (aplicarRegla2 (capacidadMinimaDe l1))
  let l3 := aplicarRegla3Lista dist p l2
  l3.map (aplicarRegla4 now)

/-- Stable insertion into a descending run: the new element goes before the
first strictly smaller score, i.e. after every earlier element with an equal
or larger score. -/
def insertaDesc (v : VehiculoEvaluado) : List VehiculoEvaluado → List VehiculoEvaluado
  | [] => [v]
  | w :: ws => if w.puntuacion < v.puntuacion then v :: w :: ws else w :: insertaDesc v ws

/-- The sort `vehiculosEvaluados.sort((a, b) => b.puntuacion - a.puntuacion)`
of the source: `Array.prototype.sort` is required to be stable, so it is
modelled as a stable insertion sort by descending score (equal scores keep
their input order). -/
def ordenaDesc (l : List VehiculoEvaluado) : List VehiculoEvaluado :=
  l.foldl (fun acc v => insertaDesc v acc) []

/-- One step of the first-maximum scan: a later element replaces the
candidate only on a strictly larger score. -/
def mejorCandidato (acc : Option VehiculoEvaluado) (v : VehiculoEvaluado) :
    Option VehiculoEvaluado :=
  match acc with
  | none => some v
  | some m => if m.puntuacion < v.puntuacion then some v else some m

/-- First element of maximal score in input order. -/
def primerMaximo? (l : List VehiculoEvaluado) : Option VehiculoEvaluado :=
  l.foldl mejorCandidato none

/-- Operation `Vehiculo.aplicarReglasSeleccion`: evaluate the pool, sort by
descending score, take the first element (`none` only on an empty pool, which
`asignarVehiculoAutomatico` rules out beforehand). -/
def aplicarReglasSeleccion (dist : ℚ → ℚ → ℚ → ℚ → ℚ) (now : ℕ)
    (vs : List VehiculoDisp) (p : PedidoDatos) : Option VehiculoEvaluado :=
  (ordenaDesc (evaluarVehiculos dist now vs p)).head?

/-- Operation `Vehiculo.asignarVehiculoAutomatico` restricted to vehicle
selection: rejects an empty eligible pool with the `BusinessLogicError` of the
source, otherwise delegates to `aplicarReglasSeleccion` (the advisory
estimated-minutes heuristic is display-only and not modelled). -/
def asignarVehiculoAutomatico (dist : ℚ → ℚ → ℚ → ℚ → ℚ) (now : ℕ)
    (disponibles : List VehiculoDisp) (p : PedidoDatos) :
    Except DomainError VehiculoEvaluado :=
  match aplicarReglasSeleccion dist now disponibles p with
  | some v => .ok v
  | none => .error (.businessLogic "No hay vehículos disponibles con capacidad suficiente")

/-- Decimal digit character, `'0'` + n for a digit value below 10. -/
def digitChar (n : ℕ) : Char := Char.ofNat (48 + n)

/-- Fuelled decimal printer: `decimalDigitsCore fuel n` is the decimal digit
string of `n` whenever `fuel` exceeds the digit count (structural recursion
on the fuel so that concrete instances reduce in the kernel). -/
def decimalDigitsCore : ℕ → ℕ → List Char
  | 0, _ => []
  | fuel + 1, n =>
    if n < 10 then [digitChar n]
    else decimalDigitsCore fuel (n / 10) ++ [digitChar (n % 10)]

/-- JS `String(n)` for a natural number: its decimal digits. -/
def decimalDigits (n : ℕ) : List Char := decimalDigitsCore (n + 1) n

/-- JS `s.padStart(6, "0")`. -/
def padStart6 (l : List Char) : List Char := List.replicate (6 - l.length) '0' ++ l

/-- Generator `generateUniqueTrackingCode` of `src/utils/codigoSeguimiento.js`
given the next sequence number read from persistence: the template
`ZAM` + `String(nextNumber).padStart(6, "0")` (characters of the produced
string). -/
def generateTrackingCode (n : ℕ) : List Char := ['Z', 'A', 'M'] ++ padStart6 (decimalDigits n)

/-- Characters removed by JS `String.prototype.trim` at either end (the
whitespace forms relevant to this model). -/
def isWhitespaceJS (c : Char) : Bool :=
  c == ' ' || c == '\t' || c == '\n' || c == '\r'

/-- JS `codigo.trim()` on the character list. -/
def trimChars (l : List Char) : List Char :=
  ((l.dropWhile isWhitespaceJS).reverse.dropWhile isWhitespaceJS).reverse

/-- The strict pattern `^ZAM\d{6}$` of `validateTrackingCode`. -/
def matchesZAMPattern (l : List Char) : Bool :=
  decide (l.length = 9) && (l.take 3 == ['Z', 'A', 'M']) && (l.drop 3).all Char.isDigit

/-- Validator `validateTrackingCode` of `src/utils/codigoSeguimiento.js`:
trims, uppercases, then requires the strict pattern; returns the cleaned
code on success (`isValid: true, value: cleanCode`). -/
def validateTrackingCode (codigo : List Char) : Option (List Char) :=
  let clean := (trimChars codigo).map Char.toUpper
  if matchesZAMPattern clean then some clean else none

/-- `CAST(SUBSTRING(codigo, 4) AS INTEGER)` for a digit string. -/
def parseDigits (l : List Char) : ℕ :=
  l.foldl (fun acc c => acc * 10 + (c.toNat - 48)) 0

/-- The `CASE WHEN codigo ~ ZAM-pattern THEN CAST(...) ELSE 0 END` of the
next-number query in `generateUniqueTrackingCode`. -/
def codeValue (l : List Char) : ℕ :=
  if matchesZAMPattern l then parseDigits (l.drop 3) else 0

/-- The next-sequence-number read of `generateUniqueTrackingCode`:
`COALESCE(MAX(...), 0) + 1` over the codes `LIKE 'ZAM%'`. -/
def nextTrackingNumber (codes : List (List Char)) : ℕ :=
  ((codes.filter (fun c => c.take 3 == ['Z', 'A', 'M'])).foldl
    (fun acc c => max acc (codeValue c)) 0) + 1

/-- Utilization-band points as the spec's section 4.3 words them (for
comparison with `reglaCapacidad`, which is translated from the source): 10
for `0.70 ≤ r ≤ 0.95`, 7 for `0.50 ≤ r < 0.70`, 4 for `0.30 ≤ r < 0.50`, 1
otherwise. -/
def puntosUtilizacionSpec (r : ℚ) : ℕ :=
  if 0.7 ≤ r ∧ r ≤ 0.95 then 10
  else if 0.5 ≤ r ∧ r < 0.7 then 7
  else if 0.3 ≤ r ∧ r < 0.5 then 4
  else 1

/-- Invariant of spec section 8: every stock row has a non-negative available
quantity. -/
def stockNonneg (db : DB) : Prop := ∀ s ∈ db.stock, 0 ≤ s.cantidadDisponible

/-- One step of a reserve/increase sequence on the Stock Ledger. -/
inductive StockOp where
  | reserve (mid : ℕ) (q : ℚ) (uid now : ℕ)
  | increase (mid : ℕ) (q : ℚ) (uid now : ℕ)

/-- Database after one ledger operation (the result value is dropped). -/
def applyStockOp (db : DB) : StockOp → DB
  | .reserve mid q uid now => (stockReduceStock db mid q uid now).1
  | .increase mid q uid now => (stockIncreaseStock db mid q uid now).1

/-- Database after a sequence of reserve/increase operations. -/
def applyStockOps (db : DB) (ops : List StockOp) : DB := ops.foldl applyStockOp db

/-- Concrete database for the partial-state run of `Pedido.confirm`: order 1
is PENDIENTE for 3 m³ of material 1, whose stock has 5 m³ available. -/
def dbC3 : DB :=
  { pedidos := [{ id := 1, codigoSeguimiento := "ZAM000001", clienteId := 2,
                  materialId := 1, cantidad := 3, precioTotal := 150,
                  estado := .pendiente, updatedAt := 0 }],
    stock := [{ materialId := 1, cantidadDisponible := 5, cantidadMinima := 2,
                actualizadoPor := 0, ultimaActualizacion := 0 }],
    materiales := [{ id := 1, nombre := "Arena", unidadMedida := "m³",
                     precioPorUnidad := 50, activo := true }] }

/-- Concrete database for the `Stock.increaseStock` cap rejection: material 1
exists and its stock has 999 m³ available. -/
def db999 : DB :=
  { pedidos := [],
    stock := [{ materialId := 1, cantidadDisponible := 999, cantidadMinima := 5,
                actualizadoPor := 0, ultimaActualizacion := 0 }],
    materiales := [{ id := 1, nombre := "Arena", unidadMedida := "m³",
                     precioPorUnidad := 50, activo := true }] }

/-- Scenario D pool: 10 m³ vehicle without location data. -/
def vC6a : VehiculoDisp :=
  { vehiculoId := 1, placa := "AAA-111", capacidad := 10,
    ubicacionLat := none, ubicacionLng := none, ultimaUbicacion := none }

/-- Scenario D pool: 15 m³ vehicle without location data. -/
def vC6b : VehiculoDisp :=
  { vehiculoId := 2, placa := "BBB-222", capacidad := 15,
    ubicacionLat := none, ubicacionLng := none, ultimaUbicacion := none }

/-- Scenario D pool: 25 m³ vehicle without location data. -/
def vC6c : VehiculoDisp :=
  { vehiculoId := 3, placa := "CCC-333", capacidad := 25,
    ubicacionLat := none, ubicacionLng := none, ultimaUbicacion := none }

/-- Scenario D order: 9 m³, no delivery coordinates. -/
def pedidoC6 : PedidoDatos := { cantidad := 9, direccionLat := none, direccionLng := none }

/-- Concrete database used to instantiate the state-machine theorems: order 1
is PENDIENTE for 3 m³ of material 1 with 5 m³ available. -/
def dbW : DB := dbC3

/-- Concrete order row of `dbW`. -/
def pedidoW : PedidoRec :=
  { id := 1, codigoSeguimiento := "ZAM000001", clienteId := 2, materialId := 1,
    cantidad := 3, precioTotal := 150, estado := .pendiente, updatedAt := 0 }

/-- Concrete stock row of `dbW`. -/
def stockW : StockRec :=
  { materialId := 1, cantidadDisponible := 5, cantidadMinima := 2,
    actualizadoPor := 0, ultimaActualizacion := 0 }

/-- Concrete material row of `dbW`. -/
def materialW : MaterialRec :=
  { id := 1, nombre := "Arena", unidadMedida := "m³", precioPorUnidad := 50, activo := true }

/-- Single-vehicle pool used to instantiate the determinism theorem. -/
def vC7 : VehiculoDisp :=
  { vehiculoId := 4, placa := "DDD-444", capacidad := 10,
    ubicacionLat := none, ubicacionLng := none, ultimaUbicacion := none }

/-- Evaluation of `vC7` for the 9 m³ order: optimal band (10) plus smallest
capacity (5). -/
def evalC7 : VehiculoEvaluado :=
  { vehiculo := vC7, puntuacion := 15,
    reglasAplicadas := ["Utilización óptima de capacidad",
                        "Vehículo de menor capacidad disponible"] }

/-- Distance function used to instantiate the engine theorems (the engine
never evaluates it on pools without location data). -/
def distW : ℚ → ℚ → ℚ → ℚ → ℚ := fun _ _ _ _ => 0

/-- Frame relation for the status write: every order column other than
`estado` and `updated_at` agrees. -/
def pedidoFrameRel (a b : PedidoRec) : Prop :=
  b.id = a.id ∧ b.codigoSeguimiento = a.codigoSeguimiento ∧ b.clienteId = a.clienteId
    ∧ b.materialId = a.materialId ∧ b.cantidad = a.cantidad ∧ b.precioTotal = a.precioTotal

/-! ### Helper lemmas -/

lemma find?_map_of_pred {α : Type} (f : α → α) (p : α → Bool)
    (hf : ∀ x, p (f x) = p x) :
    ∀ l : List α, (l.map f).find? p = (l.find? p).map f
  | [] => rfl
  | x :: xs => by
    by_cases h : p x = true
    · rw [List.map_cons, List.find?_cons_of_pos _ (by rw [hf]; exact h),
        List.find?_cons_of_pos _ h]
      rfl
    · rw [List.map_cons, List.find?_cons_of_neg _ (by rw [hf]; simpa using h),
        List.find?_cons_of_neg _ (by simpa using h), find?_map_of_pred f p hf xs]

lemma updateStatusRow_id (id : ℕ) (nuevo : Estado) (now : ℕ) (p : PedidoRec) :
    (updateStatusRow id nuevo now p).id = p.id := by
  unfold updateStatusRow; split <;> rfl

lemma reduceStockRow_materialId (mid : ℕ) (qty : ℚ) (uid now : ℕ) (s : StockRec) :
    (reduceStockRow mid qty uid now s).materialId = s.materialId := by
  unfold reduceStockRow; split <;> rfl

lemma setQuantityRow_materialId (mid : ℕ) (q : ℚ) (uid now : ℕ) (s : StockRec) :
    (setQuantityRow mid q uid now s).materialId = s.materialId := by
  unfold setQuantityRow; split <;> rfl

lemma jsRound2_nonneg {q : ℚ} (h : 0 < q) : 0 ≤ jsRound2 q := by
  unfold jsRound2
  have h1 : (0 : ℤ) ≤ ⌊q * 100 + 1 / 2⌋ := Int.floor_nonneg.mpr (by nlinarith)
  have h2 : (0 : ℚ) ≤ (⌊q * 100 + 1 / 2⌋ : ℚ) := by exact_mod_cast h1
  linarith

lemma validateQuantity_pos_le {q : ℚ} (h0 : 0 < q) (h1 : q ≤ 1000) :
    validateQuantity q = some (jsRound2 q) := by
  unfold validateQuantity
  rw [if_neg (by linarith), if_neg (by linarith)]

lemma validateQuantity_some_nonneg {q qv : ℚ} (h : validateQuantity q = some qv) :
    0 ≤ qv := by
  unfold validateQuantity at h
  by_cases h0 : q ≤ 0
  · rw [if_pos h0] at h; cases h
  · rw [if_neg h0] at h
    by_cases h1 : 1000 < q
    · rw [if_pos h1] at h; cases h
    · rw [if_neg h1] at h
      obtain rfl : jsRound2 q = qv := by injection h
      exact jsRound2_nonneg (lt_of_not_le h0)

/-! ### C5 - utilization band -/

/-- C5 counterexample: for the eligible pair quantity 9, capacity 9 the ratio
is 1 (above 0.95), where the source awards 7 points while the claim's band
table awards 1. -/
theorem claim_C5_counterexample :
    (reglaCapacidad 9 9).1 = 7 ∧ puntosUtilizacionSpec (9 / 9) = 1 := by
  norm_num [reglaCapacidad, puntosUtilizacionSpec]

/-- C5 amended: with `r = cantidad / capacidad`, the utilization rule of
`Vehiculo.aplicarReglasSeleccion` awards 10 points for `0.70 ≤ r ≤ 0.95`, 7
points for `0.50 ≤ r < 0.70` and also for every `r > 0.95`, 4 points for
`0.30 ≤ r < 0.50`, and 1 point for `r < 0.30`. -/
theorem claim_C5_amended (cantidad capacidad : ℚ) :
    ((0.7 ≤ cantidad / capacidad ∧ cantidad / capacidad ≤ 0.95) →
        (reglaCapacidad cantidad capacidad).1 = 10)
  ∧ (((0.5 ≤ cantidad / capacidad ∧ cantidad / capacidad < 0.7) ∨ 0.95 < cantidad / capacidad) →
        (reglaCapacidad cantidad capacidad).1 = 7)
  ∧ ((0.3 ≤ cantidad / capacidad ∧ cantidad / capacidad < 0.5) →
        (reglaCapacidad cantidad capacidad).1 = 4)
  ∧ (cantidad / capacidad < 0.3 → (reglaCapacidad cantidad capacidad).1 = 1) := by
  refine ⟨fun h => ?_, fun h => ?_, fun h => ?_, fun h => ?_⟩ <;>
    unfold reglaCapacidad <;> dsimp only
  · rw [if_pos h]
  · have h05 : (0.5 : ℚ) ≤ cantidad / capacidad := by
      rcases h with ⟨h1, _⟩ | h1 <;> linarith
    have hno : ¬((0.7 : ℚ) ≤ cantidad / capacidad ∧ cantidad / capacidad ≤ 0.95) := by
      rcases h with ⟨_, h2⟩ | h2
      · rintro ⟨hc, _⟩; linarith
      · rintro ⟨_, hc⟩; linarith
    rw [if_neg hno, if_pos h05]
  · have hno1 : ¬((0.7 : ℚ) ≤ cantidad / capacidad ∧ cantidad / capacidad ≤ 0.95) := by
      rintro ⟨hc, _⟩; linarith [h.2]
    have hno2 : ¬((0.5 : ℚ) ≤ cantidad / capacidad) := by
      intro hc; linarith [h.2]
    rw [if_neg hno1, if_neg hno2, if_pos h.1]
  · have hno1 : ¬((0.7 : ℚ) ≤ cantidad / capacidad ∧ cantidad / capacidad ≤ 0.95) := by
      rintro ⟨hc, _⟩; linarith
    have hno2 : ¬((0.5 : ℚ) ≤ cantidad / capacidad) := by intro hc; linarith
    have hno3 : ¬((0.3 : ℚ) ≤ cantidad / capacidad) := by intro hc; linarith
    rw [if_neg hno1, if_neg hno2, if_neg hno3]

/-- Band membership of the ratio 9/10 (discharges the optimal-band
hypothesis at a concrete input). -/
lemma banda_910 : (0.7 : ℚ) ≤ 9 / 10 ∧ (9 : ℚ) / 10 ≤ 0.95 := by norm_num

/-- C5 witness: quantity 9 on capacity 10 (ratio 0.9) earns 10 points. -/
theorem claim_C5_witness : (reglaCapacidad 9 10).1 = 10 :=
  (claim_C5_amended 9 10).1 banda_910

/-! ### C6 - scenario D -/

/-- C6: for the 9 m³ order and the eligible pool of 10/15/25 m³ vehicles with
no location data, the engine scores 15 (10 optimal band + 5 smallest
capacity), 7 and 4 in input order and selects the 10 m³ vehicle, for every
distance function and every clock value (proximity and freshness award
nothing here). -/
theorem claim_C6 (dist : ℚ → ℚ → ℚ → ℚ → ℚ) (now : ℕ) :
    (evaluarVehiculos dist now [vC6a, vC6b, vC6c] pedidoC6).map (fun v => v.puntuacion)
        = [15, 7, 4]
  ∧ (aplicarReglasSeleccion dist now [vC6a, vC6b, vC6c] pedidoC6).map (fun v => v.vehiculo)
        = some vC6a
  ∧ (aplicarReglasSeleccion dist now [vC6a, vC6b, vC6c] pedidoC6).map (fun v => v.puntuacion)
        = some 15 := by
  norm_num [evaluarVehiculos, aplicarReglasSeleccion, aplicarRegla1, aplicarRegla2,
    aplicarRegla3Lista, aplicarRegla4, reglaCapacidad, capacidadMinimaDe,
    vC6a, vC6b, vC6c, pedidoC6, ordenaDesc, insertaDesc]

/-! ### C3 - confirm is not transactional -/

/-- C3: on `dbC3` (order 1 PENDIENTE for 3 m³, 5 m³ available), a `confirm`
run in which the `PEDIDOS.UPDATE_STATUS` write fails after the successful
`STOCK.REDUCE_STOCK` write surfaces the persistence error, and the database
it leaves behind has the stock already decremented to 2 while the order is
still PENDIENTE: the reservation is not rolled back (there is no
transactional boundary in `Pedido.confirm`), contradicting the claimed
no-partial-state guarantee. -/
theorem claim_C3_partial_state :
    (pedidoConfirmAux true dbC3 1 9 7).2 = .error .dbFailure
  ∧ (findStock (pedidoConfirmAux true dbC3 1 9 7).1 1).map (fun s => s.cantidadDisponible)
        = some 2
  ∧ (findPedido (pedidoConfirmAux true dbC3 1 9 7).1 1).map (fun p => p.estado)
        = some .pendiente
  ∧ (findStock dbC3 1).map (fun s => s.cantidadDisponible) = some 5 := by
  norm_num [pedidoConfirmAux, pedidoFindById, findPedido, validateId, dbC3, List.find?,
    verificarStockDisponible, findStock, queryReduceStock, reduceStockRow,
    pedidoUpdateStatusAux, estadoStr, flujoEstados]

/-! ### C9 - increase is capped by the quantity validator -/

/-- C9 counterexample: with 999 m³ on hand, increasing by the non-negative
quantity 2 is rejected (`ValidationError`, the validator caps quantities at
1000 m³) and the stock is unchanged, instead of succeeding with 1001. -/
theorem claim_C9_counterexample :
    (0 : ℚ) ≤ 2
  ∧ stockIncreaseStock db999 1 2 7 0 = (db999, .error (.validation "Cantidad inválida")) := by
  norm_num [stockIncreaseStock, stockFindByMaterial, findStock, findMaterial, validateId,
    stockUpdateQuantity, validateQuantity, jsRound2, queryUpdateQuantity, setQuantityRow,
    calculateStockLevel, db999, List.find?]

/-! ### C10 - tracking code round trip -/

/-- C10 counterexample: when the orders table already holds `ZAM999999`, the
next-sequence-number read is 1000000 and the generated code `ZAM1000000`
(seven digits) is rejected by the strict `^ZAM\d{6}$` validator. -/
theorem claim_C10_counterexample :
    nextTrackingNumber [generateTrackingCode 999999] = 1000000
  ∧ validateTrackingCode (generateTrackingCode 1000000) = none := by decide

lemma digitChar_props {n : ℕ} (h : n < 10) :
    (digitChar n).isDigit = true ∧ isWhitespaceJS (digitChar n) = false
      ∧ (digitChar n).toUpper = digitChar n := by
  interval_cases n <;> exact ⟨by decide, by decide, by decide⟩

lemma decimalDigitsCore_props :
    ∀ fuel n, ∀ c ∈ decimalDigitsCore fuel n,
      c.isDigit = true ∧ isWhitespaceJS c = false ∧ c.toUpper = c := by
  intro fuel
  induction fuel with
  | zero => intro n c hc; cases hc
  | succ fuel ih =>
    intro n c hc
    rw [decimalDigitsCore] at hc
    by_cases h : n < 10
    · rw [if_pos h] at hc
      obtain rfl := List.mem_singleton.mp hc
      exact digitChar_props h
    · rw [if_neg h] at hc
      rcases List.mem_append.mp hc with h1 | h2
      · exact ih _ c h1
      · obtain rfl := List.mem_singleton.mp h2
        exact digitChar_props (Nat.mod_lt _ (by omega))

lemma decimalDigitsCore_length :
    ∀ fuel k n, n < 10 ^ k → 0 < k → (decimalDigitsCore fuel n).length ≤ k := by
  intro fuel
  induction fuel with
  | zero => intro k n _ _; simp [decimalDigitsCore]
  | succ fuel ih =>
    intro k n hn hk
    rw [decimalDigitsCore]
    by_cases h : n < 10
    · rw [if_pos h]; simpa using hk
    · rw [if_neg h]
      have hk2 : 2 ≤ k := by
        by_contra hc
        have : k = 1 := by omega
        subst this
        simp at hn
        omega
      have hdiv : n / 10 < 10 ^ (k - 1) := by
        have h10 : (10 : ℕ) ^ k = 10 ^ (k - 1) * 10 := by
          rw [← pow_succ]
          congr 1
          omega
        exact (Nat.div_lt_iff_lt_mul (by norm_num)).mpr (by rw [← h10]; exact hn)
      have := ih (k - 1) (n / 10) hdiv (by omega)
      simp only [List.length_append, List.length_cons, List.length_nil]
      omega

lemma dropWhile_eq_self_of_all {p : Char → Bool} {l : List Char}
    (h : ∀ c ∈ l, p c = false) : l.dropWhile p = l := by
  cases l with
  | nil => rfl
  | cons c cs =>
    rw [List.dropWhile_cons, h c (by simp)]
    simp

lemma trimChars_eq_self {l : List Char}
    (h : ∀ c ∈ l, isWhitespaceJS c = false) : trimChars l = l := by
  unfold trimChars
  rw [dropWhile_eq_self_of_all h,
    dropWhile_eq_self_of_all (fun c hc => h c (List.mem_reverse.mp hc)),
    List.reverse_reverse]

lemma mapToUpper_eq_self {l : List Char}
    (h : ∀ c ∈ l, c.toUpper = c) : l.map Char.toUpper = l := by
  rw [List.map_congr_left h]
  exact List.map_id' l

lemma generateTrackingCode_chars {n : ℕ} :
    ∀ c ∈ generateTrackingCode n, isWhitespaceJS c = false ∧ c.toUpper = c := by
  intro c hc
  unfold generateTrackingCode padStart6 at hc
  rcases List.mem_append.mp hc with h1 | h2
  · fin_cases h1 <;> exact ⟨by decide, by decide⟩
  · rcases List.mem_append.mp h2 with h3 | h4
    · have := List.eq_of_mem_replicate h3
      subst this
      exact ⟨by decide, by decide⟩
    · have := decimalDigitsCore_props (n + 1) n c h4
      exact ⟨this.2.1, this.2.2⟩

lemma generateTrackingCode_take3 (n : ℕ) :
    (generateTrackingCode n).take 3 = ['Z', 'A', 'M'] := rfl

lemma generateTrackingCode_drop3 (n : ℕ) :
    (generateTrackingCode n).drop 3 = padStart6 (decimalDigits n) := rfl

lemma generateTrackingCode_matches {n : ℕ} (h : n < 10 ^ 6) :
    matchesZAMPattern (generateTrackingCode n) = true := by
  have hlen : (decimalDigits n).length ≤ 6 :=
    decimalDigitsCore_length (n + 1) 6 n h (by omega)
  unfold matchesZAMPattern
  rw [generateTrackingCode_take3, generateTrackingCode_drop3]
  refine (Bool.and_eq_true _ _).mpr ⟨(Bool.and_eq_true _ _).mpr ⟨?_, by decide⟩, ?_⟩
  · rw [decide_eq_true_eq]
    simp only [generateTrackingCode, padStart6, List.length_append, List.length_cons,
      List.length_nil, List.length_replicate]
    omega
  · unfold padStart6
    rw [List.all_append, Bool.and_eq_true]
    constructor
    · rw [List.all_eq_true]
      intro c hc
      obtain rfl := List.eq_of_mem_replicate hc
      decide
    · rw [List.all_eq_true]
      intro c hc
      exact (decimalDigitsCore_props (n + 1) n c hc).1

/-- C10 amended: the generator/validator round trip holds for every
next-sequence-number from 1 up to 999999 (the largest value for which the
zero-padded part still has six digits): the produced code is accepted
unchanged by `validateTrackingCode`'s strict pattern. -/
theorem claim_C10_amended (n : ℕ) (h1 : 1 ≤ n) (h2 : n ≤ 999999) :
    validateTrackingCode (generateTrackingCode n) = some (generateTrackingCode n) := by
  unfold validateTrackingCode
  rw [trimChars_eq_self (fun c hc => (generateTrackingCode_chars c hc).1),
    mapToUpper_eq_self (fun c hc => (generateTrackingCode_chars c hc).2),
    if_pos (generateTrackingCode_matches (by omega))]

/-- C10 witness: the round trip at sequence number 123. -/
theorem claim_C10_witness :
    validateTrackingCode (generateTrackingCode 123) = some (generateTrackingCode 123) :=
  claim_C10_amended 123 (by decide) (by decide)

/-! ### C1 / C8 - state machine -/

lemma queryUpdateStatus_found {db : DB} {id : ℕ} {p : PedidoRec} (nuevo : Estado) (now : ℕ)
    (hfind : findPedido db id = some p) :
    queryUpdateStatus db id nuevo now =
      ({ db with pedidos := db.pedidos.map (updateStatusRow id nuevo now) },
       some { p with estado := nuevo, updatedAt := now }) := by
  have hpred : ∀ x : PedidoRec, ((updateStatusRow id nuevo now x).id == id) = (x.id == id) :=
    fun x => by rw [updateStatusRow_id]
  have hfind' : db.pedidos.find? (fun q => q.id == id) = some p := hfind
  have hp : (p.id == id) = true :=
    @List.find?_some PedidoRec (fun q => q.id == id) p db.pedidos hfind'
  unfold queryUpdateStatus
  dsimp only
  rw [find?_map_of_pred _ _ hpred, hfind']
  simp [updateStatusRow, hp]

lemma updateStatusAux_spec (failWrite : Bool) (db : DB) (id : ℕ) (nuevo : Estado)
    (uid now : ℕ) (p : PedidoRec) (hid : validateId id = true)
    (hfind : findPedido db id = some p) :
    pedidoUpdateStatusAux failWrite db id nuevo uid now =
      if nuevo ∈ flujoEstados p.estado then
        if failWrite then (db, .error .dbFailure)
        else ({ db with pedidos := db.pedidos.map (updateStatusRow id nuevo now) },
              .ok { p with estado := nuevo, updatedAt := now })
      else (db, .error (.businessLogic (mensajeTransicionInvalida p.estado nuevo))) := by
  unfold pedidoUpdateStatusAux
  rw [if_neg (by rw [hid]; simp), hfind]
  dsimp only
  by_cases hmem : nuevo ∈ flujoEstados p.estado
  · rw [if_pos hmem, if_pos hmem]
    cases failWrite with
    | true => rw [if_pos rfl, if_pos rfl]
    | false =>
      rw [if_neg (by simp), if_neg (by simp), queryUpdateStatus_found nuevo now hfind]
  · rw [if_neg hmem, if_neg hmem]

/-- C1: `Pedido.updateStatus` enforces exactly the transition table
PENDIENTE to CONFIRMADO or CANCELADO, CONFIRMADO to ASIGNADO or CANCELADO,
ASIGNADO to EN_TRANSITO or CANCELADO, EN_TRANSITO to ENTREGADO, with
ENTREGADO and CANCELADO terminal: for an existing order it succeeds exactly
when the requested status is a permitted transition of the current status
(writing only that status), and otherwise raises a `BusinessLogicError`
whose message (`mensajeTransicionInvalida`) names the attempted current and
requested pair together with the permitted next states, leaving the
database, hence the order's status, unchanged. -/
theorem claim_C1_updateStatus (db : DB) (id : ℕ) (nuevo : Estado) (uid now : ℕ)
    (p : PedidoRec) (hid : validateId id = true) (hfind : findPedido db id = some p) :
    (flujoEstados .pendiente = [.confirmado, .cancelado]
      ∧ flujoEstados .confirmado = [.asignado, .cancelado]
      ∧ flujoEstados .asignado = [.enTransito, .cancelado]
      ∧ flujoEstados .enTransito = [.entregado]
      ∧ flujoEstados .entregado = [] ∧ flujoEstados .cancelado = [])
  ∧ ((∃ r, (pedidoUpdateStatus db id nuevo uid now).2 = .ok r)
        ↔ nuevo ∈ flujoEstados p.estado)
  ∧ (nuevo ∈ flujoEstados p.estado →
      pedidoUpdateStatus db id nuevo uid now =
        ({ db with pedidos := db.pedidos.map (updateStatusRow id nuevo now) },
         .ok { p with estado := nuevo, updatedAt := now }))
  ∧ (nuevo ∉ flujoEstados p.estado →
      pedidoUpdateStatus db id nuevo uid now =
        (db, .error (.businessLogic (mensajeTransicionInvalida p.estado nuevo)))) := by
  have hspec := updateStatusAux_spec false db id nuevo uid now p hid hfind
  unfold pedidoUpdateStatus
  rw [hspec]
  by_cases hmem : nuevo ∈ flujoEstados p.estado
  · rw [if_pos hmem, if_neg (by simp)]
    exact ⟨⟨rfl, rfl, rfl, rfl, rfl, rfl⟩,
      ⟨fun _ => hmem, fun _ => ⟨_, rfl⟩⟩,
      fun _ => rfl, fun hc => absurd hmem hc⟩
  · rw [if_neg hmem]
    refine ⟨⟨rfl, rfl, rfl, rfl, rfl, rfl⟩, ⟨fun hr => ?_, fun hc => absurd hc hmem⟩,
      fun hc => absurd hc hmem, fun _ => rfl⟩
    rcases hr with ⟨r, hr⟩
    cases hr

/-- C1 witness: on `dbW`, the PENDIENTE order 1 is moved to CONFIRMADO. -/
theorem claim_C1_witness :
    pedidoUpdateStatus dbW 1 .confirmado 4 9 =
      ({ dbW with pedidos := dbW.pedidos.map (updateStatusRow 1 .confirmado 9) },
       .ok { pedidoW with estado := .confirmado, updatedAt := 9 }) :=
  (claim_C1_updateStatus dbW 1 .confirmado 4 9 pedidoW rfl rfl).2.2.1 (by decide)

/-- C8: the status write is frame-bounded: whatever the outcome,
`Pedido.updateStatus` leaves the stock table and the materials table
untouched (stock is only mutated by `confirm`), and every order row keeps its
id, tracking code, client, material, quantity and total price - only
`estado` and `updated_at` can change. -/
theorem claim_C8_frame (db : DB) (id : ℕ) (nuevo : Estado) (uid now : ℕ) :
    (pedidoUpdateStatus db id nuevo uid now).1.stock = db.stock
  ∧ (pedidoUpdateStatus db id nuevo uid now).1.materiales = db.materiales
  ∧ List.Forall₂ pedidoFrameRel db.pedidos (pedidoUpdateStatus db id nuevo uid now).1.pedidos := by
  have hrefl : ∀ l : List PedidoRec, List.Forall₂ pedidoFrameRel l l := fun l =>
    List.forall₂_same.mpr (fun x _ => ⟨rfl, rfl, rfl, rfl, rfl, rfl⟩)
  have hmap : List.Forall₂ pedidoFrameRel db.pedidos
      (db.pedidos.map (updateStatusRow id nuevo now)) := by
    rw [List.forall₂_map_right_iff]
    refine List.forall₂_same.mpr (fun x _ => ?_)
    unfold pedidoFrameRel updateStatusRow
    split <;> exact ⟨rfl, rfl, rfl, rfl, rfl, rfl⟩
  unfold pedidoUpdateStatus pedidoUpdateStatusAux
  split
  · exact ⟨rfl, rfl, hrefl _⟩
  · cases hfind : findPedido db id with
    | none => exact ⟨rfl, rfl, hrefl _⟩
    | some p =>
      dsimp only
      by_cases hmem : nuevo ∈ flujoEstados p.estado
      · rw [if_pos hmem, if_neg (by simp)]
        unfold queryUpdateStatus
        dsimp only
        cases hq : (db.pedidos.map (updateStatusRow id nuevo now)).find? (fun q => q.id == id) with
        | none => exact ⟨rfl, rfl, hmap⟩
        | some u => exact ⟨rfl, rfl, hmap⟩
      · rw [if_neg hmem]
        exact ⟨rfl, rfl, hrefl _⟩

/-! ### C2 - stock ledger -/

lemma find?_stock_cond {l : List StockRec} {mid : ℕ} {q : ℚ} {s : StockRec}
    (h : l.find? (fun r => r.materialId == mid) = some s) (hq : q ≤ s.cantidadDisponible) :
    l.find? (fun r => r.materialId == mid && decide (q ≤ r.cantidadDisponible)) = some s := by
  induction l with
  | nil => cases h
  | cons r rs ih =>
    by_cases hr : (r.materialId == mid) = true
    · simp only [List.find?, hr] at h
      obtain rfl := Option.some.inj h
      simp only [List.find?, hr, Bool.true_and, decide_eq_true hq]
    · have hr' : (r.materialId == mid) = false := by simpa using hr
      simp only [List.find?, hr'] at h
      simp only [List.find?, hr', Bool.false_and]
      exact ih h

lemma checkAvailability_spec (db : DB) (mid : ℕ) (q : ℚ) (s : StockRec)
    (hmid : validateId mid = true) (hq0 : 0 < q) (hq1 : q ≤ 1000) (hr : jsRound2 q = q)
    (hs : findStock db mid = some s) :
    ∃ a, stockCheckAvailability db mid q = .ok a
      ∧ a.disponible = decide (q ≤ s.cantidadDisponible) := by
  have hv : validateQuantity q = some q := by rw [validateQuantity_pos_le hq0 hq1, hr]
  unfold stockCheckAvailability
  rw [if_neg (by rw [hmid]; simp), hv]
  dsimp only
  have hdisp : verificarStockDisponible db mid q = decide (q ≤ s.cantidadDisponible) := by
    unfold verificarStockDisponible
    rw [hs]
  unfold stockFindByMaterial
  rw [if_neg (by rw [hmid]; simp), hs]
  cases hm : findMaterial db mid with
  | none => exact ⟨_, rfl, hdisp⟩
  | some m => exact ⟨_, rfl, hdisp⟩

lemma reduceStock_spec (db : DB) (mid : ℕ) (q : ℚ) (uid now : ℕ) (s : StockRec)
    (hmid : validateId mid = true) (huid : validateId uid = true)
    (hq0 : 0 < q) (hq1 : q ≤ 1000) (hr : jsRound2 q = q)
    (hs : findStock db mid = some s) :
    (q ≤ s.cantidadDisponible →
      stockReduceStock db mid q uid now =
        ({ db with stock := db.stock.map (reduceStockRow mid q uid now) },
         .ok { s with cantidadDisponible := s.cantidadDisponible - q,
                      actualizadoPor := uid, ultimaActualizacion := now }))
  ∧ (s.cantidadDisponible < q →
      ∃ msg, stockReduceStock db mid q uid now = (db, .error (.businessLogic msg))) := by
  have hv : validateQuantity q = some q := by rw [validateQuantity_pos_le hq0 hq1, hr]
  obtain ⟨a, ha, hdisp⟩ := checkAvailability_spec db mid q s hmid hq0 hq1 hr hs
  have hs' : db.stock.find? (fun r => r.materialId == mid) = some s := hs
  unfold stockReduceStock
  rw [hv]
  dsimp only
  rw [if_neg (by rw [hmid, huid]; simp), ha]
  dsimp only
  constructor
  · intro hle
    rw [if_neg (by rw [hdisp, decide_eq_true hle]; simp)]
    unfold queryReduceStock
    have hfc := find?_stock_cond hs' hle
    rw [hfc]
    rfl
  · intro hlt
    rw [if_pos (by rw [hdisp, decide_eq_false (not_le.mpr hlt)])]
    exact ⟨_, rfl⟩

lemma stockNonneg_map_reduce {db : DB} (mid : ℕ) (q : ℚ) (uid now : ℕ)
    (h : stockNonneg db) :
    stockNonneg { db with stock := db.stock.map (reduceStockRow mid q uid now) } := by
  intro s hsMem
  rcases List.mem_map.mp hsMem with ⟨x, hx, rfl⟩
  unfold reduceStockRow
  split_ifs with h1
  · exact sub_nonneg.mpr h1.2
  · exact h x hx

lemma stockNonneg_reduceStock (db : DB) (mid : ℕ) (q : ℚ) (uid now : ℕ)
    (h : stockNonneg db) : stockNonneg (stockReduceStock db mid q uid now).1 := by
  unfold stockReduceStock
  cases hv : validateQuantity q with
  | none => exact h
  | some qv =>
    dsimp only
    by_cases hids : validateId mid = false ∨ validateId uid = false
    · rw [if_pos hids]; exact h
    · rw [if_neg hids]
      cases hca : stockCheckAvailability db mid qv with
      | error e => exact h
      | ok availability =>
        dsimp only
        by_cases hdisp : availability.disponible = false
        · rw [if_pos hdisp]; exact h
        · rw [if_neg hdisp]
          unfold queryReduceStock
          cases hfq : (db.stock.find?
              (fun s => s.materialId == mid && decide (qv ≤ s.cantidadDisponible))).map
              (fun s => { s with cantidadDisponible := s.cantidadDisponible - qv,
                                 actualizadoPor := uid, ultimaActualizacion := now }) with
          | none => exact stockNonneg_map_reduce mid qv uid now h
          | some u => exact stockNonneg_map_reduce mid qv uid now h

lemma stockNonneg_updateQuantity (db : DB) (mid : ℕ) (nueva : ℚ) (uid now : ℕ)
    (h : stockNonneg db) : stockNonneg (stockUpdateQuantity db mid nueva uid now).1 := by
  unfold stockUpdateQuantity
  by_cases hmid : validateId mid = false
  · rw [if_pos hmid]; exact h
  · rw [if_neg hmid]
    cases hv : validateQuantity nueva with
    | none => exact h
    | some qv =>
      dsimp only
      by_cases huid : validateId uid = false
      · rw [if_pos huid]; exact h
      · rw [if_neg huid]
        cases hm : findMaterial db mid with
        | none => exact h
        | some m =>
          dsimp only
          cases hsb : stockFindByMaterial db mid with
          | error e => exact h
          | ok info =>
            cases info with
            | none => exact h
            | some i =>
              dsimp only
              unfold queryUpdateQuantity
              have hrow : stockNonneg
                  { db with stock := db.stock.map (setQuantityRow mid qv uid now) } := by
                intro s hsMem
                rcases List.mem_map.mp hsMem with ⟨x, hx, rfl⟩
                unfold setQuantityRow
                split_ifs with h1
                · exact validateQuantity_some_nonneg hv
                · exact h x hx
              cases hfq : (db.stock.find? (fun s => s.materialId == mid)).map
                  (setQuantityRow mid qv uid now) with
              | none => exact hrow
              | some u => exact hrow

lemma stockNonneg_increaseStock (db : DB) (mid : ℕ) (q : ℚ) (uid now : ℕ)
    (h : stockNonneg db) : stockNonneg (stockIncreaseStock db mid q uid now).1 := by
  unfold stockIncreaseStock
  cases hsb : stockFindByMaterial db mid with
  | error e => exact h
  | ok info =>
    cases info with
    | none => exact h
    | some i => exact stockNonneg_updateQuantity db mid _ uid now h

lemma stockNonneg_applyOps :
    ∀ (ops : List StockOp) (db : DB), stockNonneg db → stockNonneg (applyStockOps db ops) := by
  intro ops
  induction ops with
  | nil => intro db h; exact h
  | cons op ops ih =>
    intro db h
    have h1 : stockNonneg (applyStockOp db op) := by
      cases op with
      | reserve mid q uid now => exact stockNonneg_reduceStock db mid q uid now h
      | increase mid q uid now => exact stockNonneg_increaseStock db mid q uid now h
    exact ih (applyStockOp db op) h1

lemma findStock_after_reduce {db : DB} {mid : ℕ} {q : ℚ} {uid now : ℕ} {s : StockRec}
    (hs : findStock db mid = some s) (hle : q ≤ s.cantidadDisponible) :
    findStock { db with stock := db.stock.map (reduceStockRow mid q uid now) } mid =
      some { s with cantidadDisponible := s.cantidadDisponible - q,
                    actualizadoPor := uid, ultimaActualizacion := now } := by
  have hpred : ∀ x : StockRec, ((reduceStockRow mid q uid now x).materialId == mid)
      = (x.materialId == mid) := fun x => by rw [reduceStockRow_materialId]
  have hs' : db.stock.find? (fun r => r.materialId == mid) = some s := hs
  have hp : (s.materialId == mid) = true :=
    @List.find?_some StockRec (fun r => r.materialId == mid) s db.stock hs'
  unfold findStock
  dsimp only
  rw [find?_map_of_pred _ _ hpred, hs']
  simp only [Option.map_some']
  unfold reduceStockRow
  rw [if_pos ⟨hp, hle⟩]

/-- C2: the reservation path of the Stock Ledger. With valid parameters and
an existing stock row: (i) when `available_quantity ≥ q` the conditional
update `STOCK.REDUCE_STOCK` decrements by exactly `q`; (ii) when not, the
operation raises a `BusinessLogicError` and the database is unchanged;
(iii) non-negativity of every stock row is preserved by every sequence of
reserve/increase operations; (iv) of two reservations against the same
material whose combined quantity exceeds availability, at most one succeeds
(the model serializes the two conditional updates, which is exactly the
guarantee the conditional `WHERE` clause provides). -/
theorem claim_C2_reserve (db : DB) (mid : ℕ) (q : ℚ) (uid now : ℕ) (s : StockRec)
    (hmid : validateId mid = true) (huid : validateId uid = true)
    (hq0 : 0 < q) (hq1 : q ≤ 1000) (hr : jsRound2 q = q)
    (hs : findStock db mid = some s) :
    (q ≤ s.cantidadDisponible →
      stockReduceStock db mid q uid now =
        ({ db with stock := db.stock.map (reduceStockRow mid q uid now) },
         .ok { s with cantidadDisponible := s.cantidadDisponible - q,
                      actualizadoPor := uid, ultimaActualizacion := now })
      ∧ findStock (stockReduceStock db mid q uid now).1 mid =
          some { s with cantidadDisponible := s.cantidadDisponible - q,
                        actualizadoPor := uid, ultimaActualizacion := now })
  ∧ (s.cantidadDisponible < q →
      ∃ msg, stockReduceStock db mid q uid now = (db, .error (.businessLogic msg)))
  ∧ (∀ (ops : List StockOp) (db₀ : DB), stockNonneg db₀ → stockNonneg (applyStockOps db₀ ops))
  ∧ (∀ q₂ uid₂ now₂, validateId uid₂ = true → 0 < q₂ → q₂ ≤ 1000 → jsRound2 q₂ = q₂ →
      s.cantidadDisponible < q + q₂ →
      ¬ ((∃ r₁, (stockReduceStock db mid q uid now).2 = .ok r₁)
        ∧ (∃ r₂, (stockReduceStock (stockReduceStock db mid q uid now).1 mid q₂ uid₂ now₂).2
              = .ok r₂))) := by
  obtain ⟨hsucc, hfail⟩ := reduceStock_spec db mid q uid now s hmid huid hq0 hq1 hr hs
  refine ⟨?_, hfail, fun ops db₀ h => stockNonneg_applyOps ops db₀ h, ?_⟩
  · intro hle
    exact ⟨hsucc hle, by rw [hsucc hle]; exact findStock_after_reduce hs hle⟩
  · rintro q₂ uid₂ now₂ huid₂ hq₂0 hq₂1 hr₂ hsum ⟨⟨r₁, hr₁⟩, ⟨r₂, hr₂ok⟩⟩
    by_cases hle : q ≤ s.cantidadDisponible
    · have h1 := hsucc hle
      have hs1 : findStock (stockReduceStock db mid q uid now).1 mid =
          some { s with cantidadDisponible := s.cantidadDisponible - q,
                        actualizadoPor := uid, ultimaActualizacion := now } := by
        rw [h1]; exact findStock_after_reduce hs hle
      obtain ⟨_, hfail2⟩ := reduceStock_spec (stockReduceStock db mid q uid now).1 mid q₂ uid₂ now₂
        _ hmid huid₂ hq₂0 hq₂1 hr₂ hs1
      obtain ⟨msg, hmsg⟩ := hfail2 (by show s.cantidadDisponible - q < q₂; linarith)
      rw [hmsg] at hr₂ok
      cases hr₂ok
    · obtain ⟨msg, hmsg⟩ := hfail (lt_of_not_le hle)
      rw [hmsg] at hr₁
      cases hr₁

/-- Concrete bound used by the C2 witness (3 of the 5 available). -/
lemma tres_le_cinco : (3 : ℚ) ≤ 5 := by norm_num

/-- Concrete rounding fact used by the C2 witness. -/
lemma jsRound2_tres : jsRound2 3 = 3 := by norm_num [jsRound2]

/-- C2 witness: reserving 3 of the 5 available units of material 1 in `dbW`
succeeds and leaves 2 units. -/
theorem claim_C2_witness :
    stockReduceStock dbW 1 3 4 9 =
      ({ dbW with stock := dbW.stock.map (reduceStockRow 1 3 4 9) },
       .ok { stockW with cantidadDisponible := 5 - 3,
                         actualizadoPor := 4, ultimaActualizacion := 9 })
    ∧ findStock (stockReduceStock dbW 1 3 4 9).1 1 =
        some { stockW with cantidadDisponible := 5 - 3,
                           actualizadoPor := 4, ultimaActualizacion := 9 } :=
  (claim_C2_reserve dbW 1 3 4 9 stockW rfl rfl (by decide) (by decide)
    jsRound2_tres rfl).1 tres_le_cinco

/-! ### C4 - confirm requires PENDIENTE and is not double-applied -/

lemma confirm_nonpending (db : DB) (id uid now : ℕ) (p : PedidoRec)
    (hid : validateId id = true) (hfind : findPedido db id = some p)
    (hne : p.estado ≠ Estado.pendiente) :
    pedidoConfirm db id uid now =
      (db, .error (.businessLogic
        ("No se puede confirmar pedido en estado: " ++ estadoStr p.estado))) := by
  unfold pedidoConfirm pedidoConfirmAux pedidoFindById
  rw [if_neg (by rw [hid]; simp), hfind]
  dsimp only
  rw [if_pos hne]

lemma confirm_ok_inv (db : DB) (id uid now : ℕ) (db' : DB) (r : PedidoRec × StockRec)
    (h : pedidoConfirm db id uid now = (db', .ok r)) :
    validateId id = true
    ∧ ∃ p, findPedido db id = some p ∧ p.estado = .pendiente
        ∧ findPedido db' id = some { p with estado := .confirmado, updatedAt := now } := by
  unfold pedidoConfirm pedidoConfirmAux pedidoFindById at h
  by_cases hid : validateId id = false
  · rw [if_pos hid] at h
    exact absurd (congrArg Prod.snd h) (by simp)
  · rw [if_neg hid] at h
    have hid' : validateId id = true := by
      cases hb : validateId id with
      | false => exact absurd hb hid
      | true => rfl
    cases hfind : findPedido db id with
    | none =>
      rw [hfind] at h
      exact absurd (congrArg Prod.snd h) (by simp)
    | some p =>
      rw [hfind] at h
      try dsimp only at h
      refine ⟨hid', p, rfl, ?_⟩
      by_cases hpend : p.estado ≠ Estado.pendiente
      · rw [if_pos hpend] at h
        exact absurd (congrArg Prod.snd h) (by simp)
      · rw [if_neg hpend] at h
        push_neg at hpend
        refine ⟨hpend, ?_⟩
        by_cases hst : verificarStockDisponible db p.materialId p.cantidad = false
        · rw [if_pos hst] at h
          exact absurd (congrArg Prod.snd h) (by simp)
        · rw [if_neg hst] at h
          unfold queryReduceStock at h
          try dsimp only at h
          cases hq : (db.stock.find?
              (fun s => s.materialId == p.materialId
                && decide (p.cantidad ≤ s.cantidadDisponible))).map
              (fun s => { s with cantidadDisponible := s.cantidadDisponible - p.cantidad,
                                 actualizadoPor := uid, ultimaActualizacion := now }) with
          | none =>
            rw [hq] at h
            exact absurd (congrArg Prod.snd h) (by simp)
          | some stockRow =>
            rw [hq] at h
            try dsimp only at h
            have hfind2 : findPedido { db with stock := db.stock.map (reduceStockRow p.materialId p.cantidad uid now) } id = some p := hfind
            have hspec := updateStatusAux_spec false
              { db with stock := db.stock.map (reduceStockRow p.materialId p.cantidad uid now) }
              id .confirmado uid now p hid' hfind2
            rw [hspec, if_pos (by rw [hpend]; exact List.mem_cons_self _ _),
              if_neg (by simp)] at h
            try dsimp only at h
            have hdb' := congrArg Prod.fst h
            try dsimp only at hdb'
            rw [← hdb']
            have hpred : ∀ x : PedidoRec,
                ((updateStatusRow id Estado.confirmado now x).id == id) = (x.id == id) :=
              fun x => by rw [updateStatusRow_id]
            have hfind' : db.pedidos.find? (fun q => q.id == id) = some p := hfind
            have hp : (p.id == id) = true :=
              @List.find?_some PedidoRec (fun q => q.id == id) p db.pedidos hfind'
            show (db.pedidos.map (updateStatusRow id Estado.confirmado now)).find?
                (fun q => q.id == id) = _
            rw [find?_map_of_pred _ _ hpred, hfind']
            simp only [Option.map_some']
            unfold updateStatusRow
            rw [if_pos hp]

/-- C4: `Pedido.confirm` on an order that is not PENDIENTE fails with the
`BusinessLogicError` naming the order's state before touching stock: the
whole database, in particular every `available_quantity`, is unchanged. As a
consequence a second `confirm` of an order just confirmed fails the same way
and leaves the post-confirm database unchanged, so stock is never
double-decremented. -/
theorem claim_C4_confirm_once (db : DB) (id uid now : ℕ) (p : PedidoRec)
    (hid : validateId id = true) (hfind : findPedido db id = some p) :
    (p.estado ≠ .pendiente →
      pedidoConfirm db id uid now =
        (db, .error (.businessLogic
          ("No se puede confirmar pedido en estado: " ++ estadoStr p.estado))))
  ∧ (∀ db' r, pedidoConfirm db id uid now = (db', .ok r) →
      ∀ uid₂ now₂, pedidoConfirm db' id uid₂ now₂ =
        (db', .error (.businessLogic
          ("No se puede confirmar pedido en estado: " ++ estadoStr Estado.confirmado)))) := by
  constructor
  · intro hne
    exact confirm_nonpending db id uid now p hid hfind hne
  · intro db' r h uid₂ now₂
    obtain ⟨hid', p₀, -, -, hfind'⟩ := confirm_ok_inv db id uid now db' r h
    have := confirm_nonpending db' id uid₂ now₂ _ hid' hfind' (by simp)
    simpa using this

/-- Concrete successful confirm of order 1 in `dbW`: the stock drops from 5
to 2 and the order becomes CONFIRMADO. -/
lemma confirm_dbW_ok :
    pedidoConfirm dbW 1 4 9 =
      ({ pedidos := [{ id := 1, codigoSeguimiento := "ZAM000001", clienteId := 2,
                       materialId := 1, cantidad := 3, precioTotal := 150,
                       estado := .confirmado, updatedAt := 9 }],
         stock := [{ materialId := 1, cantidadDisponible := 2, cantidadMinima := 2,
                     actualizadoPor := 4, ultimaActualizacion := 9 }],
         materiales := [materialW] },
       .ok ({ id := 1, codigoSeguimiento := "ZAM000001", clienteId := 2,
              materialId := 1, cantidad := 3, precioTotal := 150,
              estado := .confirmado, updatedAt := 9 },
            { materialId := 1, cantidadDisponible := 2, cantidadMinima := 2,
              actualizadoPor := 4, ultimaActualizacion := 9 })) := by
  norm_num [pedidoConfirm, pedidoConfirmAux, pedidoFindById, findPedido, validateId, dbW, dbC3,
    materialW, List.find?, verificarStockDisponible, findStock, queryReduceStock, reduceStockRow,
    pedidoUpdateStatusAux, estadoStr, flujoEstados, queryUpdateStatus, updateStatusRow]

/-- C4 witness: after the successful confirm of order 1 in `dbW`, a second
confirm is rejected with the already-CONFIRMADO `BusinessLogicError` and the
database is unchanged. -/
theorem claim_C4_witness :
    pedidoConfirm
      { pedidos := [{ id := 1, codigoSeguimiento := "ZAM000001", clienteId := 2,
                      materialId := 1, cantidad := 3, precioTotal := 150,
                      estado := .confirmado, updatedAt := 9 }],
        stock := [{ materialId := 1, cantidadDisponible := 2, cantidadMinima := 2,
                    actualizadoPor := 4, ultimaActualizacion := 9 }],
        materiales := [materialW] } 1 4 11 =
      ({ pedidos := [{ id := 1, codigoSeguimiento := "ZAM000001", clienteId := 2,
                       materialId := 1, cantidad := 3, precioTotal := 150,
                       estado := .confirmado, updatedAt := 9 }],
         stock := [{ materialId := 1, cantidadDisponible := 2, cantidadMinima := 2,
                     actualizadoPor := 4, ultimaActualizacion := 9 }],
         materiales := [materialW] },
       .error (.businessLogic
         ("No se puede confirmar pedido en estado: " ++ estadoStr Estado.confirmado))) :=
  (claim_C4_confirm_once dbW 1 4 9 pedidoW rfl rfl).2 _ _ confirm_dbW_ok 4 11

/-! ### C9 - increase, amended -/

lemma increaseStock_eq_update (db : DB) (mid : ℕ) (q : ℚ) (uid now : ℕ)
    (s : StockRec) (m : MaterialRec) (hmid : validateId mid = true)
    (hs : findStock db mid = some s) (hm : findMaterial db mid = some m) :
    stockIncreaseStock db mid q uid now =
      stockUpdateQuantity db mid (s.cantidadDisponible + q) uid now := by
  unfold stockIncreaseStock stockFindByMaterial
  rw [if_neg (by rw [hmid]; simp), hs, hm]

lemma updateQuantity_invalid (db : DB) (mid : ℕ) (nueva : ℚ) (uid now : ℕ)
    (hmid : validateId mid = true) (hv : validateQuantity nueva = none) :
    stockUpdateQuantity db mid nueva uid now =
      (db, .error (.validation "Cantidad inválida")) := by
  unfold stockUpdateQuantity
  rw [if_neg (by rw [hmid]; simp), hv]

lemma updateQuantity_success (db : DB) (mid : ℕ) (nueva : ℚ) (uid now : ℕ)
    (s : StockRec) (m : MaterialRec)
    (hmid : validateId mid = true) (huid : validateId uid = true)
    (hs : findStock db mid = some s) (hm : findMaterial db mid = some m)
    (hpos : 0 < nueva) (hcap : nueva ≤ 1000) :
    stockUpdateQuantity db mid nueva uid now =
      ({ db with stock := db.stock.map (setQuantityRow mid (jsRound2 nueva) uid now) },
       .ok { s with cantidadDisponible := jsRound2 nueva,
                    actualizadoPor := uid, ultimaActualizacion := now }) := by
  have hs' : db.stock.find? (fun r => r.materialId == mid) = some s := hs
  have hp : (s.materialId == mid) = true :=
    @List.find?_some StockRec (fun r => r.materialId == mid) s db.stock hs'
  have hv : validateQuantity nueva = some (jsRound2 nueva) :=
    validateQuantity_pos_le hpos hcap
  unfold stockUpdateQuantity
  rw [if_neg (by rw [hmid]; simp), hv]
  try dsimp only
  rw [if_neg (by rw [huid]; simp), hm]
  try dsimp only
  unfold stockFindByMaterial
  rw [if_neg (by rw [hmid]; simp), hs, hm]
  try dsimp only
  unfold queryUpdateQuantity
  rw [hs']
  try dsimp only
  simp only [Option.map_some']
  unfold setQuantityRow
  rw [if_pos hp]

/-- C9 amended: for a material with stock and material rows and a
non-negative increment `q`, `Stock.increaseStock` is an additive update that
succeeds exactly when the new total `available + q` passes the quantity
validator: when `0 < available + q ≤ 1000` it stores the sum rounded to two
decimals, and when the total exceeds the 1000 m³ cap - or is not positive -
the operation is rejected with the `ValidationError` of the validator and the
database, in particular the stock, is unchanged. (The counterexample shows
the cap, refuting the claimed "no upper bound, no rejection".) -/
theorem claim_C9_amended (db : DB) (mid : ℕ) (q : ℚ) (uid now : ℕ)
    (s : StockRec) (m : MaterialRec)
    (hmid : validateId mid = true) (huid : validateId uid = true) (hq : 0 ≤ q)
    (hs : findStock db mid = some s) (hm : findMaterial db mid = some m) :
    ((0 < s.cantidadDisponible + q ∧ s.cantidadDisponible + q ≤ 1000) →
      stockIncreaseStock db mid q uid now =
        ({ db with stock := db.stock.map (setQuantityRow mid (jsRound2 (s.cantidadDisponible + q)) uid now) },
         .ok { s with cantidadDisponible := jsRound2 (s.cantidadDisponible + q),
                      actualizadoPor := uid, ultimaActualizacion := now }))
  ∧ (1000 < s.cantidadDisponible + q →
      stockIncreaseStock db mid q uid now =
        (db, .error (.validation "Cantidad inválida")))
  ∧ (s.cantidadDisponible + q ≤ 0 →
      stockIncreaseStock db mid q uid now =
        (db, .error (.validation "Cantidad inválida"))) := by
  have heq := increaseStock_eq_update db mid q uid now s m hmid hs hm
  refine ⟨?_, ?_, ?_⟩
  · rintro ⟨hpos, hcap⟩
    rw [heq]
    exact updateQuantity_success db mid _ uid now s m hmid huid hs hm hpos hcap
  · intro hcap
    rw [heq]
    refine updateQuantity_invalid db mid _ uid now hmid ?_
    unfold validateQuantity
    rw [if_neg (by linarith), if_pos hcap]
  · intro hneg
    rw [heq]
    refine updateQuantity_invalid db mid _ uid now hmid ?_
    unfold validateQuantity
    rw [if_pos hneg]

/-- Positivity of the new total used by the C9 witness. -/
lemma cinco_mas_tres_pos : (0 : ℚ) < 5 + 3 := by norm_num

/-- Cap bound of the new total used by the C9 witness. -/
lemma cinco_mas_tres_cap : (5 : ℚ) + 3 ≤ 1000 := by norm_num

/-- C9 witness: increasing material 1 of `dbW` by 3 succeeds additively. -/
theorem claim_C9_witness :
    stockIncreaseStock dbW 1 3 4 9 =
      ({ dbW with stock := dbW.stock.map (setQuantityRow 1 (jsRound2 (stockW.cantidadDisponible + 3)) 4 9) },
       .ok { stockW with cantidadDisponible := jsRound2 (stockW.cantidadDisponible + 3),
                         actualizadoPor := 4, ultimaActualizacion := 9 }) :=
  (claim_C9_amended dbW 1 3 4 9 stockW materialW rfl rfl (by decide) rfl rfl).1
    ⟨cinco_mas_tres_pos, cinco_mas_tres_cap⟩

/-! ### C7 - selection determinism and tie-breaking -/

lemma insertaDesc_head? (v : VehiculoEvaluado) (l : List VehiculoEvaluado) :
    (insertaDesc v l).head? = mejorCandidato l.head? v := by
  cases l with
  | nil => rfl
  | cons w ws =>
    by_cases h : w.puntuacion < v.puntuacion
    · simp [insertaDesc, mejorCandidato, h]
    · simp [insertaDesc, mejorCandidato, h]

lemma foldl_insert_head (l : List VehiculoEvaluado) :
    ∀ acc : List VehiculoEvaluado,
      (l.foldl (fun acc v => insertaDesc v acc) acc).head? =
        l.foldl mejorCandidato acc.head? := by
  induction l with
  | nil => intro acc; rfl
  | cons v vs ih =>
    intro acc
    rw [List.foldl_cons, List.foldl_cons, ih (insertaDesc v acc), insertaDesc_head?]

lemma ordenaDesc_head? (l : List VehiculoEvaluado) :
    (ordenaDesc l).head? = primerMaximo? l := by
  unfold ordenaDesc primerMaximo?
  exact foldl_insert_head l []

lemma foldl_mejorCandidato_max (l : List VehiculoEvaluado) :
    ∀ (acc : Option VehiculoEvaluado) (m : VehiculoEvaluado),
      l.foldl mejorCandidato acc = some m →
      (∀ w ∈ l, w.puntuacion ≤ m.puntuacion)
        ∧ (∀ a, acc = some a → a.puntuacion ≤ m.puntuacion) := by
  induction l with
  | nil =>
    intro acc m h
    refine ⟨by simp, fun a ha => ?_⟩
    rw [List.foldl_nil] at h
    rw [ha] at h
    obtain rfl := Option.some.inj h
    exact le_refl _
  | cons v vs ih =>
    intro acc m h
    rw [List.foldl_cons] at h
    obtain ⟨h1, h2⟩ := ih (mejorCandidato acc v) m h
    constructor
    · intro w hw
      rcases List.mem_cons.mp hw with rfl | hw'
      · have hb : ∃ b, mejorCandidato acc w = some b ∧ w.puntuacion ≤ b.puntuacion := by
          cases acc with
          | none => exact ⟨w, rfl, le_refl _⟩
          | some a =>
            by_cases hc : a.puntuacion < w.puntuacion
            · exact ⟨w, by simp [mejorCandidato, hc], le_refl _⟩
            · exact ⟨a, by simp [mejorCandidato, hc], le_of_not_lt hc⟩
        obtain ⟨b, hb1, hb2⟩ := hb
        exact le_trans hb2 (h2 b hb1)
      · exact h1 w hw'
    · intro a ha
      have hb : ∃ b, mejorCandidato acc v = some b ∧ a.puntuacion ≤ b.puntuacion := by
        rw [ha]
        by_cases hc : a.puntuacion < v.puntuacion
        · exact ⟨v, by simp [mejorCandidato, hc], le_of_lt hc⟩
        · exact ⟨a, by simp [mejorCandidato, hc], le_refl _⟩
      obtain ⟨b, hb1, hb2⟩ := hb
      exact le_trans hb2 (h2 b hb1)

/-- C7: the automatic selection path is deterministic and breaks ties by
input order. For every fixed distance function, frozen clock, vehicle pool
and order: two runs coincide (the selection is a pure function of these
inputs, including its score and applied-rule list); the selected entry is
`primerMaximo?` of the evaluated pool, i.e. the first vehicle in input order
whose score is never strictly exceeded later (the stable descending sort
keeps equal scores in input order); and the selected score is maximal over
the evaluated pool. -/
theorem claim_C7_determinism (dist : ℚ → ℚ → ℚ → ℚ → ℚ) (now : ℕ)
    (vs : List VehiculoDisp) (p : PedidoDatos) :
    (aplicarReglasSeleccion dist now vs p = aplicarReglasSeleccion dist now vs p)
  ∧ (aplicarReglasSeleccion dist now vs p = primerMaximo? (evaluarVehiculos dist now vs p))
  ∧ (∀ sel, aplicarReglasSeleccion dist now vs p = some sel →
      ∀ w ∈ evaluarVehiculos dist now vs p, w.puntuacion ≤ sel.puntuacion) := by
  refine ⟨rfl, ?_, ?_⟩
  · unfold aplicarReglasSeleccion
    exact ordenaDesc_head? _
  · intro sel hsel w hw
    unfold aplicarReglasSeleccion at hsel
    rw [ordenaDesc_head?] at hsel
    unfold primerMaximo? at hsel
    exact (foldl_mejorCandidato_max _ _ _ hsel).1 w hw

/-- Concrete selection used by the C7 witness. -/
lemma selC7_eval : aplicarReglasSeleccion distW 0 [vC7] pedidoC6 = some evalC7 := by
  norm_num [aplicarReglasSeleccion, evaluarVehiculos, aplicarRegla1, aplicarRegla2,
    aplicarRegla3Lista, aplicarRegla4, reglaCapacidad, capacidadMinimaDe,
    ordenaDesc, insertaDesc, vC7, pedidoC6, distW, evalC7]

/-- Concrete pool membership used by the C7 witness. -/
lemma memC7 : evalC7 ∈ evaluarVehiculos distW 0 [vC7] pedidoC6 := by
  norm_num [evaluarVehiculos, aplicarRegla1, aplicarRegla2, aplicarRegla3Lista,
    aplicarRegla4, reglaCapacidad, capacidadMinimaDe, vC7, pedidoC6, distW, evalC7]

/-- C7 witness: the maximality part instantiated on the one-vehicle pool. -/
theorem claim_C7_witness : evalC7.puntuacion ≤ evalC7.puntuacion :=
  (claim_C7_determinism distW 0 [vC7] pedidoC6).2.2 evalC7 selC7_eval evalC7 memC7

end Zambrana
